import Mathlib

/-!
Verification of the metrics engine and the connect endpoint of
`mt5_bridge.py`.

The source is a single Flask application.  Its computational core is
`calculate_metrics(trades_df, account_info)`, a pure single-pass
aggregation over a list of deal records together with an account
snapshot.  We embed the record set as a `List Trade`, the account
snapshot as `AccountInfo`, and use exact rationals `ℚ` for the
floating-point arithmetic of the source (the claims under scrutiny are
exact identities and inequalities on small values, where float and
rational arithmetic agree).  Metric values are either numbers or
strings, mirroring the fact that `Average Trade Duration` is a
formatted string while every other metric is numeric.
-/

/-- One deal record from the terminal history query.  `profit` and
`volume` are signed numerics, `entry` is the direction tag compared
against the terminal constants, and the two timestamps are optional:
the source guards their use with `hasattr` checks, so a record lacking
either is excluded from duration averaging. -/
structure Trade where
  profit : ℚ
  volume : ℚ
  entry : ℤ
  time_setup : Option ℤ
  time_update : Option ℤ
  deriving DecidableEq, Repr

/-- Point-in-time account snapshot as read from the terminal. -/
structure AccountInfo where
  balance : ℚ
  equity : ℚ
  profit : ℚ
  margin_level : ℚ
  deriving DecidableEq, Repr

/-- A metric value: a number, or a short formatted duration string. -/
inductive MVal
  | num (q : ℚ)
  | str (s : String)
  deriving DecidableEq, Repr

/-- A named output metric. -/
structure Metric where
  name : String
  value : MVal
  isCustom : Bool
  deriving DecidableEq, Repr

/-- The result of one metrics computation: the fixed statistical list
and the account-derived custom list. -/
structure Metrics where
  default : List Metric
  custom : List Metric
  deriving DecidableEq, Repr

/-- `mt5.ORDER_TYPE_BUY` in the MetaTrader 5 package. -/
def ORDER_TYPE_BUY : ℤ := 0

/-- `mt5.ORDER_TYPE_SELL` in the MetaTrader 5 package. -/
def ORDER_TYPE_SELL : ℤ := 1

/-- `trades_df[trades_df[\x27profit\x27] > 0]`: the profitable subset. -/
def profitable_trades (ts : List Trade) : List Trade :=
  ts.filter fun t => decide (t.profit > 0)

/-- `trades_df[trades_df[\x27profit\x27] < 0]`: the losing subset. -/
def losing_trades (ts : List Trade) : List Trade :=
  ts.filter fun t => decide (t.profit < 0)

/-- `total_trades = len(trades_df)`. -/
def total_trades (ts : List Trade) : ℕ := ts.length

/-- `lots = trades_df[\x27volume\x27].sum() if not trades_df.empty else 0`. -/
def lots (ts : List Trade) : ℚ :=
  if ts.isEmpty then 0 else (ts.map Trade.volume).sum

/-- `win_rate = (len(profitable_trades) / total_trades * 100) if total_trades > 0 else 0`. -/
def win_rate (ts : List Trade) : ℚ :=
  if total_trades ts > 0 then
    ((profitable_trades ts).length : ℚ) / (total_trades ts : ℚ) * 100
  else 0

/-- `loss_rate = (len(losing_trades) / total_trades * 100) if total_trades > 0 else 0`. -/
def loss_rate (ts : List Trade) : ℚ :=
  if total_trades ts > 0 then
    ((losing_trades ts).length : ℚ) / (total_trades ts : ℚ) * 100
  else 0

/-- `gross_profit = profitable_trades[\x27profit\x27].sum()`. -/
def gross_profit (ts : List Trade) : ℚ :=
  ((profitable_trades ts).map Trade.profit).sum

/-- `gross_loss = abs(losing_trades[\x27profit\x27].sum())`. -/
def gross_loss (ts : List Trade) : ℚ :=
  |((losing_trades ts).map Trade.profit).sum|

/-- `profit_factor = (gross_profit / gross_loss) if gross_loss > 0 else 0`. -/
def profit_factor (ts : List Trade) : ℚ :=
  if gross_loss ts > 0 then gross_profit ts / gross_loss ts else 0

/-- Maximum of a list of rationals, as `pandas.Series.max` on a
non-empty column (the source guards the empty case separately). -/
def series_max : List ℚ → ℚ
  | [] => 0
  | x :: xs => xs.foldl max x

/-- Minimum of a list of rationals, as `pandas.Series.min` on a
non-empty column (the source guards the empty case separately). -/
def series_min : List ℚ → ℚ
  | [] => 0
  | x :: xs => xs.foldl min x

/-- `best_trade = profitable_trades[\x27profit\x27].max() if not profitable_trades.empty else 0`. -/
def best_trade (ts : List Trade) : ℚ :=
  if (profitable_trades ts).isEmpty then 0
  else series_max ((profitable_trades ts).map Trade.profit)

/-- `worst_trade = losing_trades[\x27profit\x27].min() if not losing_trades.empty else 0`. -/
def worst_trade (ts : List Trade) : ℚ :=
  if (losing_trades ts).isEmpty then 0
  else series_min ((losing_trades ts).map Trade.profit)

/-- `long_trades = trades_df[trades_df[\x27entry\x27] == mt5.ORDER_TYPE_BUY]`. -/
def long_trades (ts : List Trade) : List Trade :=
  ts.filter fun t => decide (t.entry = ORDER_TYPE_BUY)

/-- `short_trades = trades_df[trades_df[\x27entry\x27] == mt5.ORDER_TYPE_SELL]`. -/
def short_trades (ts : List Trade) : List Trade :=
  ts.filter fun t => decide (t.entry = ORDER_TYPE_SELL)

/-- `long_won = (len(long_trades[long_trades[\x27profit\x27] > 0]) / len(long_trades) * 100) if len(long_trades) > 0 else 0`. -/
def long_won (ts : List Trade) : ℚ :=
  if (long_trades ts).length > 0 then
    (((long_trades ts).filter fun t => decide (t.profit > 0)).length : ℚ)
      / ((long_trades ts).length : ℚ) * 100
  else 0

/-- `short_won = (len(short_trades[short_trades[\x27profit\x27] > 0]) / len(short_trades) * 100) if len(short_trades) > 0 else 0`. -/
def short_won (ts : List Trade) : ℚ :=
  if (short_trades ts).length > 0 then
    (((short_trades ts).filter fun t => decide (t.profit > 0)).length : ℚ)
      / ((short_trades ts).length : ℚ) * 100
  else 0

/-- `trade_durations = [(trade.time_update - trade.time_setup) for trade in trades_df.itertuples() if hasattr(trade, ...) ...]`:
the duration of each record where both timestamps are present. -/
def trade_durations (ts : List Trade) : List ℤ :=
  ts.filterMap fun t =>
    match t.time_update, t.time_setup with
    | some u, some s => some (u - s)
    | _, _ => none

/-- `avg_duration_seconds = sum(trade_durations) / len(trade_durations) if trade_durations else 0`. -/
def avg_duration_seconds (ts : List Trade) : ℚ :=
  if (trade_durations ts).isEmpty then 0
  else ((trade_durations ts).sum : ℚ) / ((trade_durations ts).length : ℚ)

/-- Two-digit zero-padded decimal, as in the minute and second fields
of the Python `timedelta` string. -/
def pad2 (n : ℕ) : String :=
  if n < 10 then "0" ++ toString n else toString n

/-- `str(timedelta(seconds=n)).split(\x27.\x27)[0]` for a non-negative whole
number of seconds `n`: `H:MM:SS` with unpadded hours below one day, and
a leading `D day(s), ` component once the duration reaches 24 hours. -/
def format_timedelta (n : ℕ) : String :=
  let days := n / 86400
  let rem := n % 86400
  let h := rem / 3600
  let m := (rem % 3600) / 60
  let s := rem % 60
  let hms := toString h ++ ":" ++ pad2 m ++ ":" ++ pad2 s
  if days == 0 then hms
  else toString days ++ (if days == 1 then " day, " else " days, ") ++ hms

/-- `avg_duration_hours = str(timedelta(seconds=avg_duration_seconds)).split(\x27.\x27)[0] if avg_duration_seconds > 0 else \x270h\x27`.
The `split` drops the fractional microseconds, truncating a positive
duration to a whole number of seconds. -/
def avg_duration_hours (ts : List Trade) : String :=
  if avg_duration_seconds ts > 0 then
    format_timedelta (avg_duration_seconds ts).floor.toNat
  else "0h"

/-- `avg_profit_per_trade = profitable_trades[\x27profit\x27].mean() if not profitable_trades.empty else 0`. -/
def avg_profit_per_trade (ts : List Trade) : ℚ :=
  if (profitable_trades ts).isEmpty then 0
  else ((profitable_trades ts).map Trade.profit).sum / ((profitable_trades ts).length : ℚ)

/-- `avg_loss_per_trade = losing_trades[\x27profit\x27].mean() if not losing_trades.empty else 0`. -/
def avg_loss_per_trade (ts : List Trade) : ℚ :=
  if (losing_trades ts).isEmpty then 0
  else ((losing_trades ts).map Trade.profit).sum / ((losing_trades ts).length : ℚ)

/-- `avg_rrr = (abs(avg_profit_per_trade) / abs(avg_loss_per_trade)) if avg_loss_per_trade != 0 else 0`. -/
def avg_rrr (ts : List Trade) : ℚ :=
  if avg_loss_per_trade ts ≠ 0 then
    |avg_profit_per_trade ts| / |avg_loss_per_trade ts|
  else 0

/-- `calculate_metrics(trades_df, account_info)` from `mt5_bridge.py`:
the early-return empty path, and the general path assembling the
fourteen default metrics and the three custom metrics. -/
def calculate_metrics (trades_df : List Trade) (account_info : AccountInfo) : Metrics :=
  if trades_df.isEmpty then
    { default := [
        { name := "Lots", value := MVal.num 0, isCustom := false },
        { name := "Avg. RRR", value := MVal.num 0, isCustom := false },
        { name := "Win Rate", value := MVal.num 0, isCustom := false },
        { name := "Loss Rate", value := MVal.num 0, isCustom := false },
        { name := "Profit Factor", value := MVal.num 0, isCustom := false },
        { name := "Best Trade", value := MVal.num 0, isCustom := false },
        { name := "Worst Trade", value := MVal.num 0, isCustom := false },
        { name := "Long Won", value := MVal.num 0, isCustom := false },
        { name := "Short Won", value := MVal.num 0, isCustom := false },
        { name := "Gross Profit", value := MVal.num 0, isCustom := false },
        { name := "Gross Loss", value := MVal.num 0, isCustom := false },
        { name := "Average Trade Duration", value := MVal.str "0h", isCustom := false },
        { name := "Average Profit per Trade", value := MVal.num 0, isCustom := false },
        { name := "Average Loss per Trade", value := MVal.num 0, isCustom := false } ],
      custom := [
        { name := "Custom ROI",
          value := MVal.num (if account_info.balance > 0 then
            account_info.profit / account_info.balance * 100 else 0),
          isCustom := true } ] }
  else
    { default := [
        { name := "Lots", value := MVal.num (lots trades_df), isCustom := false },
        { name := "Avg. RRR", value := MVal.num (avg_rrr trades_df), isCustom := false },
        { name := "Win Rate", value := MVal.num (win_rate trades_df), isCustom := false },
        { name := "Loss Rate", value := MVal.num (loss_rate trades_df), isCustom := false },
        { name := "Profit Factor", value := MVal.num (profit_factor trades_df), isCustom := false },
        { name := "Best Trade", value := MVal.num (best_trade trades_df), isCustom := false },
        { name := "Worst Trade", value := MVal.num (worst_trade trades_df), isCustom := false },
        { name := "Long Won", value := MVal.num (long_won trades_df), isCustom := false },
        { name := "Short Won", value := MVal.num (short_won trades_df), isCustom := false },
        { name := "Gross Profit", value := MVal.num (gross_profit trades_df), isCustom := false },
        { name := "Gross Loss", value := MVal.num (gross_loss trades_df), isCustom := false },
        { name := "Average Trade Duration", value := MVal.str (avg_duration_hours trades_df), isCustom := false },
        { name := "Average Profit per Trade", value := MVal.num (avg_profit_per_trade trades_df), isCustom := false },
        { name := "Average Loss per Trade", value := MVal.num (avg_loss_per_trade trades_df), isCustom := false } ],
      custom := [
        { name := "Custom ROI",
          value := MVal.num (if account_info.balance > 0 then
            account_info.profit / account_info.balance * 100 else 0),
          isCustom := true },
        { name := "Equity to Balance Ratio",
          value := MVal.num (if account_info.balance > 0 then
            account_info.equity / account_info.balance * 100 else 0),
          isCustom := true },
        { name := "Margin Level",
          value := MVal.num (if account_info.margin_level > 0 then
            account_info.margin_level else 0),
          isCustom := true } ] }

/-- Look a metric up by display name across both output lists. -/
def getMetric (m : Metrics) (n : String) : Option MVal :=
  (List.find? (fun mt => mt.name == n) (m.default ++ m.custom)).map Metric.value

lemma filter_pair_length_le {α : Type} (p q : α → Bool)
    (hpq : ∀ x, ¬(p x = true ∧ q x = true)) (l : List α) :
    (l.filter p).length + (l.filter q).length ≤ l.length := by
  induction l with
  | nil => simp
  | cons a l ih =>
    rw [List.filter_cons, List.filter_cons]
    cases hp : p a
    · cases hq : q a
      · rw [if_neg Bool.false_ne_true, if_neg Bool.false_ne_true, List.length_cons]
        omega
      · rw [if_neg Bool.false_ne_true, if_pos rfl, List.length_cons, List.length_cons]
        omega
    · cases hq : q a
      · rw [if_pos rfl, if_neg Bool.false_ne_true, List.length_cons, List.length_cons]
        omega
      · exact absurd ⟨hp, hq⟩ (hpq a)

lemma filter_pair_length_eq_iff {α : Type} (p q : α → Bool)
    (hpq : ∀ x, ¬(p x = true ∧ q x = true)) (l : List α) :
    ((l.filter p).length + (l.filter q).length = l.length ↔
      ∀ x ∈ l, p x = true ∨ q x = true) := by
  induction l with
  | nil => simp
  | cons a l ih =>
    have hle := filter_pair_length_le p q hpq l
    rw [List.forall_mem_cons, List.filter_cons, List.filter_cons]
    cases hp : p a
    · cases hq : q a
      · rw [if_neg Bool.false_ne_true, if_neg Bool.false_ne_true, List.length_cons]
        constructor
        · intro he
          exfalso
          omega
        · rintro ⟨hor, -⟩
          rcases hor with h | h <;> exact absurd h Bool.false_ne_true
      · rw [if_neg Bool.false_ne_true, if_pos rfl, List.length_cons, List.length_cons]
        constructor
        · intro he
          exact ⟨Or.inr rfl, ih.mp (by omega)⟩
        · rintro ⟨-, hrest⟩
          have := ih.mpr hrest
          omega
    · cases hq : q a
      · rw [if_pos rfl, if_neg Bool.false_ne_true, List.length_cons, List.length_cons]
        constructor
        · intro he
          exact ⟨Or.inl rfl, ih.mp (by omega)⟩
        · rintro ⟨-, hrest⟩
          have := ih.mpr hrest
          omega
      · exact absurd ⟨hp, hq⟩ (hpq a)

lemma profitable_losing_length_le (ts : List Trade) :
    (profitable_trades ts).length + (losing_trades ts).length ≤ ts.length :=
  filter_pair_length_le _ _
    (fun _ ⟨h1, h2⟩ => absurd (of_decide_eq_true h2) (lt_asymm (of_decide_eq_true h1))) ts

lemma profitable_losing_length_eq_iff (ts : List Trade) :
    (profitable_trades ts).length + (losing_trades ts).length = ts.length ↔
      ∀ t ∈ ts, t.profit ≠ 0 := by
  rw [profitable_trades, losing_trades,
    filter_pair_length_eq_iff _ _
      (fun _ ⟨h1, h2⟩ => absurd (of_decide_eq_true h2) (lt_asymm (of_decide_eq_true h1)))]
  constructor
  · intro hall t ht
    rcases hall t ht with h | h
    · exact ne_of_gt (of_decide_eq_true h)
    · exact ne_of_lt (of_decide_eq_true h)
  · intro hall t ht
    rcases lt_or_gt_of_ne (hall t ht) with h | h
    · exact Or.inr (decide_eq_true h)
    · exact Or.inl (decide_eq_true h)

/-- The two concrete records of the scenario in the testable properties:
a winning BUY of profit 100 and volume 1, and a losing SELL of profit
-50 and volume 2 (no timestamps). -/
def demo_records : List Trade :=
  [{ profit := 100, volume := 1, entry := ORDER_TYPE_BUY, time_setup := none, time_update := none },
   { profit := -50, volume := 2, entry := ORDER_TYPE_SELL, time_setup := none, time_update := none }]

/-- The concrete account snapshot of the scenario. -/
def demo_account : AccountInfo :=
  { balance := 1000, equity := 1050, profit := 50, margin_level := 200 }

/-- The fourteen default metric names, in the order the source emits them. -/
def default_metric_names : List String :=
  ["Lots", "Avg. RRR", "Win Rate", "Loss Rate", "Profit Factor", "Best Trade",
   "Worst Trade", "Long Won", "Short Won", "Gross Profit", "Gross Loss",
   "Average Trade Duration", "Average Profit per Trade", "Average Loss per Trade"]

/-- Claim C1: with an empty record set, `calculate_metrics` returns the
fourteen default metrics all of numeric value 0 except `Average Trade
Duration`, whose value is the literal string `0h`, and a single custom
metric `Custom ROI` valued `profit / balance * 100` when the balance is
positive and 0 otherwise. -/
theorem calculate_metrics_empty_path (a : AccountInfo) :
    (calculate_metrics [] a).default.length = 14 ∧
    (calculate_metrics [] a).default = [
      { name := "Lots", value := MVal.num 0, isCustom := false },
      { name := "Avg. RRR", value := MVal.num 0, isCustom := false },
      { name := "Win Rate", value := MVal.num 0, isCustom := false },
      { name := "Loss Rate", value := MVal.num 0, isCustom := false },
      { name := "Profit Factor", value := MVal.num 0, isCustom := false },
      { name := "Best Trade", value := MVal.num 0, isCustom := false },
      { name := "Worst Trade", value := MVal.num 0, isCustom := false },
      { name := "Long Won", value := MVal.num 0, isCustom := false },
      { name := "Short Won", value := MVal.num 0, isCustom := false },
      { name := "Gross Profit", value := MVal.num 0, isCustom := false },
      { name := "Gross Loss", value := MVal.num 0, isCustom := false },
      { name := "Average Trade Duration", value := MVal.str "0h", isCustom := false },
      { name := "Average Profit per Trade", value := MVal.num 0, isCustom := false },
      { name := "Average Loss per Trade", value := MVal.num 0, isCustom := false } ] ∧
    (calculate_metrics [] a).custom = [
      { name := "Custom ROI",
        value := MVal.num (if a.balance > 0 then a.profit / a.balance * 100 else 0),
        isCustom := true } ] :=
  ⟨rfl, rfl, rfl⟩

/-- Claim C2: with a non-empty record set, the custom list has exactly
the three metrics `Custom ROI`, `Equity to Balance Ratio` and `Margin
Level`, in that order, each guarded at zero exactly as the source
guards them. -/
theorem calculate_metrics_nonempty_custom (ts : List Trade) (a : AccountInfo)
    (h : ts ≠ []) :
    (calculate_metrics ts a).custom = [
      { name := "Custom ROI",
        value := MVal.num (if a.balance > 0 then a.profit / a.balance * 100 else 0),
        isCustom := true },
      { name := "Equity to Balance Ratio",
        value := MVal.num (if a.balance > 0 then a.equity / a.balance * 100 else 0),
        isCustom := true },
      { name := "Margin Level",
        value := MVal.num (if a.margin_level > 0 then a.margin_level else 0),
        isCustom := true } ] := by
  cases ts with
  | nil => exact absurd rfl h
  | cons t ts => rfl

/-- Witness for C2 at the scenario records and account. -/
theorem calculate_metrics_nonempty_custom_witness :
    (calculate_metrics demo_records demo_account).custom = [
      { name := "Custom ROI",
        value := MVal.num (if demo_account.balance > 0 then
          demo_account.profit / demo_account.balance * 100 else 0),
        isCustom := true },
      { name := "Equity to Balance Ratio",
        value := MVal.num (if demo_account.balance > 0 then
          demo_account.equity / demo_account.balance * 100 else 0),
        isCustom := true },
      { name := "Margin Level",
        value := MVal.num (if demo_account.margin_level > 0 then
          demo_account.margin_level else 0),
        isCustom := true } ] :=
  calculate_metrics_nonempty_custom demo_records demo_account (List.cons_ne_nil _ _)

/-- Claim C10: on both paths the default list carries the same fourteen
names in the same order, every default metric has `isCustom = false`,
and every custom metric has `isCustom = true`. -/
theorem calculate_metrics_shape (ts : List Trade) (a : AccountInfo) :
    (calculate_metrics ts a).default.map Metric.name = default_metric_names ∧
    (calculate_metrics ts a).default.length = 14 ∧
    (∀ m ∈ (calculate_metrics ts a).default, m.isCustom = false) ∧
    (∀ m ∈ (calculate_metrics ts a).custom, m.isCustom = true) := by
  refine ⟨?_, ?_, ?_, ?_⟩
  · cases ts <;> rfl
  · cases ts <;> rfl
  · intro m hm
    have h2 := List.mem_map_of_mem Metric.isCustom hm
    have h3 : (calculate_metrics ts a).default.map Metric.isCustom =
        List.replicate 14 false := by cases ts <;> rfl
    rw [h3] at h2
    exact List.eq_of_mem_replicate h2
  · intro m hm
    have h2 := List.mem_map_of_mem Metric.isCustom hm
    cases ts with
    | nil =>
      have h3 : (calculate_metrics [] a).custom.map Metric.isCustom =
          List.replicate 1 true := rfl
      rw [h3] at h2
      exact List.eq_of_mem_replicate h2
    | cons t ts =>
      have h3 : (calculate_metrics (t :: ts) a).custom.map Metric.isCustom =
          List.replicate 3 true := rfl
      rw [h3] at h2
      exact List.eq_of_mem_replicate h2

/-- Claim C9: the metrics computation is deterministic, a total
function of the record list and the account snapshot alone.  The
embedding is a pure function over immutable values, faithfully to the
source, whose single pass only reads `trades_df` (boolean-mask
selections and `itertuples` allocate fresh views and never write back
or re-order the frame). -/
theorem calculate_metrics_deterministic (ts₁ ts₂ : List Trade)
    (a₁ a₂ : AccountInfo) (ht : ts₁ = ts₂) (ha : a₁ = a₂) :
    calculate_metrics ts₁ a₁ = calculate_metrics ts₂ a₂ := by
  rw [ht, ha]

/-- Witness for C9 at the scenario input. -/
theorem calculate_metrics_deterministic_witness :
    calculate_metrics demo_records demo_account =
      calculate_metrics demo_records demo_account :=
  calculate_metrics_deterministic demo_records demo_records
    demo_account demo_account rfl rfl

/-- Claim C7: the `Gross Profit` metric is the sum of the positive
profits and the `Gross Loss` metric the absolute value of the sum of
the negative profits, and both are non-negative on every path. -/
theorem gross_profit_loss_nonneg (ts : List Trade) (a : AccountInfo) :
    getMetric (calculate_metrics ts a) "Gross Profit" =
      some (MVal.num (gross_profit ts)) ∧
    getMetric (calculate_metrics ts a) "Gross Loss" =
      some (MVal.num (gross_loss ts)) ∧
    0 ≤ gross_profit ts ∧ 0 ≤ gross_loss ts := by
  refine ⟨?_, ?_, ?_, abs_nonneg _⟩
  · cases ts <;> rfl
  · cases ts <;> rfl
  · apply List.sum_nonneg
    intro x hx
    obtain ⟨t, ht, rfl⟩ := List.mem_map.mp hx
    exact le_of_lt (of_decide_eq_true (List.mem_filter.mp ht).2)

/-- Claim C5: whenever the `Gross Loss` metric is 0, the `Profit
Factor` metric is 0 as well, on the empty path and the general path
alike. -/
theorem profit_factor_zero_of_gross_loss_zero (ts : List Trade) (a : AccountInfo)
    (h : getMetric (calculate_metrics ts a) "Gross Loss" = some (MVal.num 0)) :
    getMetric (calculate_metrics ts a) "Profit Factor" = some (MVal.num 0) := by
  cases ts with
  | nil => rfl
  | cons t ts =>
    have hgl : getMetric (calculate_metrics (t :: ts) a) "Gross Loss" =
        some (MVal.num (gross_loss (t :: ts))) := rfl
    rw [hgl] at h
    simp only [Option.some.injEq, MVal.num.injEq] at h
    have hpf : getMetric (calculate_metrics (t :: ts) a) "Profit Factor" =
        some (MVal.num (profit_factor (t :: ts))) := rfl
    rw [hpf, profit_factor, h]
    norm_num

/-- Witness for C5: one winning trade and no losing trade, so the gross
loss is 0 while the gross profit is 100; the profit factor is 0. -/
theorem profit_factor_zero_witness :
    getMetric (calculate_metrics
        [{ profit := 100, volume := 1, entry := ORDER_TYPE_BUY,
           time_setup := none, time_update := none }] demo_account)
      "Profit Factor" = some (MVal.num 0) := by
  apply profit_factor_zero_of_gross_loss_zero
  show some (MVal.num (gross_loss
      [{ profit := 100, volume := 1, entry := ORDER_TYPE_BUY,
         time_setup := none, time_update := none }])) = some (MVal.num 0)
  have hgl : gross_loss
      [{ profit := 100, volume := 1, entry := ORDER_TYPE_BUY,
         time_setup := none, time_update := none }] = 0 := by
    norm_num [gross_loss, losing_trades, List.filter]
  rw [hgl]

/-- The default terminal path of the `/connect` handler. -/
def DEFAULT_TERMINAL_PATH : String :=
  "C:\\Users\\Administrator\\AppData\\Roaming\\MetaTrader 5\\terminal64.exe"

/-- The JSON body of a `POST /connect` request: each field may be
absent (`data.get` returns `None` then). -/
structure ConnectBody where
  login : Option ℤ
  password : Option String
  server : Option String
  path : Option String
  deriving DecidableEq, Repr

/-- What the `/connect` handler does before its first terminal call:
an uncaught `TypeError` (Flask then answers 500), the 400 validation
response, or passage to the terminal-connection phase with the parsed
credentials.  All three happen before any `mt5` call, so none has
session side effects. -/
inductive ConnectOutcome
  | typeError
  | badRequest (err : String)
  | proceed (login : ℤ) (password server path : String)
  deriving DecidableEq, Repr

/-- Python truthiness of an optional string: `None` and the empty
string are falsy. -/
def truthy_str (s : Option String) : Bool :=
  match s with
  | none => false
  | some v => decide (v ≠ "")

/-- The validation phase of `connect_mt5` in `mt5_bridge.py`, lines
102-109: `login = int(data.get(\x27login\x27))` raises `TypeError` when the
key is absent (`int(None)`), then `if not all([login, password,
server])` returns the fixed 400 response, where `0`, `None` and `""`
are all falsy. -/
def connect_mt5 (data : ConnectBody) : ConnectOutcome :=
  match data.login with
  | none => ConnectOutcome.typeError
  | some login =>
    let password := data.password
    let server := data.server
    let path := data.path.getD DEFAULT_TERMINAL_PATH
    if login ≠ 0 ∧ truthy_str password = true ∧ truthy_str server = true then
      ConnectOutcome.proceed login (password.getD "") (server.getD "") path
    else ConnectOutcome.badRequest "Missing required credentials"

/-- Claim C8, the divergence: a body missing `password` or `server`
does get the 400 `Missing required credentials` response, but a body
missing `login` reaches `int(None)` before the validation check and
raises `TypeError` instead of returning that response. -/
theorem connect_missing_login_bug :
    connect_mt5 { login := none, password := some "secret",
                  server := some "Broker-Demo", path := none } =
      ConnectOutcome.typeError ∧
    connect_mt5 { login := none, password := some "secret",
                  server := some "Broker-Demo", path := none } ≠
      ConnectOutcome.badRequest "Missing required credentials" ∧
    connect_mt5 { login := some 12345, password := none,
                  server := some "Broker-Demo", path := none } =
      ConnectOutcome.badRequest "Missing required credentials" ∧
    connect_mt5 { login := some 12345, password := some "secret",
                  server := none, path := none } =
      ConnectOutcome.badRequest "Missing required credentials" := by
  refine ⟨rfl, ?_, ?_, ?_⟩ <;> decide

/-- Claim C4: for a non-empty record set the win and loss rates are the
percentages of strictly profitable and strictly losing records over
the whole record count, their sum is at most 100, and it is exactly
100 precisely when no record has zero profit (a zero-profit record
enlarges the shared denominator without joining either subset). -/
theorem win_rate_add_loss_rate (ts : List Trade) (a : AccountInfo) (h : ts ≠ []) :
    getMetric (calculate_metrics ts a) "Win Rate" = some (MVal.num (win_rate ts)) ∧
    getMetric (calculate_metrics ts a) "Loss Rate" = some (MVal.num (loss_rate ts)) ∧
    win_rate ts + loss_rate ts ≤ 100 ∧
    (win_rate ts + loss_rate ts = 100 ↔ ∀ t ∈ ts, t.profit ≠ 0) := by
  obtain ⟨x, xs, rfl⟩ := List.exists_cons_of_ne_nil h
  have hn : 0 < (x :: xs).length := List.length_pos.mpr h
  have hq : (0 : ℚ) < ((x :: xs).length : ℚ) := by exact_mod_cast hn
  have hw : win_rate (x :: xs) =
      ((profitable_trades (x :: xs)).length : ℚ) / ((x :: xs).length : ℚ) * 100 := by
    rw [win_rate]
    unfold total_trades
    rw [if_pos hn]
  have hl : loss_rate (x :: xs) =
      ((losing_trades (x :: xs)).length : ℚ) / ((x :: xs).length : ℚ) * 100 := by
    rw [loss_rate]
    unfold total_trades
    rw [if_pos hn]
  have key : win_rate (x :: xs) + loss_rate (x :: xs) =
      (((profitable_trades (x :: xs)).length + (losing_trades (x :: xs)).length : ℕ) : ℚ)
        * 100 / ((x :: xs).length : ℚ) := by
    rw [hw, hl]
    push_cast
    ring
  have hple := profitable_losing_length_le (x :: xs)
  refine ⟨rfl, rfl, ?_, ?_⟩
  · rw [key, div_le_iff₀ hq]
    have hc : (((profitable_trades (x :: xs)).length +
        (losing_trades (x :: xs)).length : ℕ) : ℚ) ≤ ((x :: xs).length : ℚ) := by
      exact_mod_cast hple
    linarith
  · rw [key, div_eq_iff (ne_of_gt hq)]
    rw [← profitable_losing_length_eq_iff]
    constructor
    · intro he
      have hc : (((profitable_trades (x :: xs)).length +
          (losing_trades (x :: xs)).length : ℕ) : ℚ) = ((x :: xs).length : ℚ) := by
        linarith
      exact_mod_cast hc
    · intro he
      have hc : (((profitable_trades (x :: xs)).length +
          (losing_trades (x :: xs)).length : ℕ) : ℚ) = ((x :: xs).length : ℚ) := by
        exact_mod_cast he
      rw [hc]
      ring

/-- Witness for C4 at the scenario records: both rates are 50, their
sum is exactly 100, and indeed no scenario record has zero profit. -/
theorem win_rate_add_loss_rate_witness :
    getMetric (calculate_metrics demo_records demo_account) "Win Rate" =
      some (MVal.num (win_rate demo_records)) ∧
    getMetric (calculate_metrics demo_records demo_account) "Loss Rate" =
      some (MVal.num (loss_rate demo_records)) ∧
    win_rate demo_records + loss_rate demo_records ≤ 100 ∧
    (win_rate demo_records + loss_rate demo_records = 100 ↔
      ∀ t ∈ demo_records, t.profit ≠ 0) :=
  win_rate_add_loss_rate demo_records demo_account (List.cons_ne_nil _ _)

/-- Counterexample for C6: a single record held for exactly 24 hours.
The mean duration is 86400 seconds, and the metric reads
`1 day, 0:00:00` (the string `str(timedelta(...))` produces), not a
string of the form `H:MM:SS` with unbounded hours, which would be
`24:00:00` here. -/
theorem avg_duration_day_counterexample :
    getMetric (calculate_metrics
        [{ profit := 0, volume := 0, entry := ORDER_TYPE_BUY,
           time_setup := some 0, time_update := some 86400 }]
        { balance := 0, equity := 0, profit := 0, margin_level := 0 })
      "Average Trade Duration" = some (MVal.str "1 day, 0:00:00") ∧
    "1 day, 0:00:00" ≠ "24:00:00" := by
  constructor
  · show some (MVal.str (avg_duration_hours
        [{ profit := 0, volume := 0, entry := ORDER_TYPE_BUY,
           time_setup := some 0, time_update := some 86400 }])) = _
    have hs : avg_duration_seconds
        [{ profit := 0, volume := 0, entry := ORDER_TYPE_BUY,
           time_setup := some 0, time_update := some 86400 }] = 86400 := by
      norm_num [avg_duration_seconds, trade_durations, List.filterMap, List.sum]
    rw [avg_duration_hours, hs, if_pos (by norm_num)]
    have hf : ((86400 : ℚ)).floor = 86400 := by
      rw [Rat.floor_def']
      norm_num
    rw [hf]
    decide
  · decide

/-- Claim C6 as amended: for a non-empty record set the metric is the
duration pipeline of the source: the mean of `(time_update -
time_setup)` over exactly the records carrying both timestamps, `0h`
when no duration could be computed or the mean is not positive, and
otherwise the Python `timedelta` rendering of the truncated mean —
`H:MM:SS` below one day, with a leading day count from 24 hours on.  A
mean of 5400 seconds yields `1:30:00`. -/
theorem avg_duration_metric_nonempty (ts : List Trade) (a : AccountInfo)
    (h : ts ≠ []) :
    getMetric (calculate_metrics ts a) "Average Trade Duration" =
      some (MVal.str (avg_duration_hours ts)) ∧
    (0 < avg_duration_seconds ts →
      avg_duration_hours ts = format_timedelta (avg_duration_seconds ts).floor.toNat) ∧
    (avg_duration_seconds ts ≤ 0 → avg_duration_hours ts = "0h") ∧
    ((trade_durations ts).isEmpty = true → avg_duration_hours ts = "0h") ∧
    format_timedelta 5400 = "1:30:00" := by
  refine ⟨?_, ?_, ?_, ?_, by decide⟩
  · cases ts with
    | nil => exact absurd rfl h
    | cons t ts => rfl
  · intro h0
    rw [avg_duration_hours, if_pos h0]
  · intro h0
    rw [avg_duration_hours, if_neg (not_lt.mpr h0)]
  · intro he
    have h0 : avg_duration_seconds ts = 0 := by
      rw [avg_duration_seconds, if_pos he]
    rw [avg_duration_hours, h0]
    norm_num

/-- Witness for C6 at a record held 90 minutes: the metric reads
`1:30:00`. -/
theorem avg_duration_metric_nonempty_witness :
    getMetric (calculate_metrics
        [{ profit := 0, volume := 0, entry := ORDER_TYPE_BUY,
           time_setup := some 100, time_update := some 5500 }]
        { balance := 0, equity := 0, profit := 0, margin_level := 0 })
      "Average Trade Duration" =
      some (MVal.str (avg_duration_hours
        [{ profit := 0, volume := 0, entry := ORDER_TYPE_BUY,
           time_setup := some 100, time_update := some 5500 }])) ∧
    (0 < avg_duration_seconds
        [{ profit := 0, volume := 0, entry := ORDER_TYPE_BUY,
           time_setup := some 100, time_update := some 5500 }] →
      avg_duration_hours
        [{ profit := 0, volume := 0, entry := ORDER_TYPE_BUY,
           time_setup := some 100, time_update := some 5500 }] =
      format_timedelta (avg_duration_seconds
        [{ profit := 0, volume := 0, entry := ORDER_TYPE_BUY,
           time_setup := some 100, time_update := some 5500 }]).floor.toNat) ∧
    (avg_duration_seconds
        [{ profit := 0, volume := 0, entry := ORDER_TYPE_BUY,
           time_setup := some 100, time_update := some 5500 }] ≤ 0 →
      avg_duration_hours
        [{ profit := 0, volume := 0, entry := ORDER_TYPE_BUY,
           time_setup := some 100, time_update := some 5500 }] = "0h") ∧
    ((trade_durations
        [{ profit := 0, volume := 0, entry := ORDER_TYPE_BUY,
           time_setup := some 100, time_update := some 5500 }]).isEmpty = true →
      avg_duration_hours
        [{ profit := 0, volume := 0, entry := ORDER_TYPE_BUY,
           time_setup := some 100, time_update := some 5500 }] = "0h") ∧
    format_timedelta 5400 = "1:30:00" :=
  avg_duration_metric_nonempty
    [{ profit := 0, volume := 0, entry := ORDER_TYPE_BUY,
       time_setup := some 100, time_update := some 5500 }]
    { balance := 0, equity := 0, profit := 0, margin_level := 0 }
    (List.cons_ne_nil _ _)

/-- Claim C3: the worked scenario — two records (a winning BUY of
profit 100, volume 1, and a losing SELL of profit -50, volume 2) with
balance 1000, equity 1050, floating profit 50 and margin level 200 —
produces exactly the thirteen metric values the spec lists. -/
theorem calculate_metrics_scenario :
    getMetric (calculate_metrics demo_records demo_account) "Lots" =
      some (MVal.num 3) ∧
    getMetric (calculate_metrics demo_records demo_account) "Win Rate" =
      some (MVal.num 50) ∧
    getMetric (calculate_metrics demo_records demo_account) "Loss Rate" =
      some (MVal.num 50) ∧
    getMetric (calculate_metrics demo_records demo_account) "Gross Profit" =
      some (MVal.num 100) ∧
    getMetric (calculate_metrics demo_records demo_account) "Gross Loss" =
      some (MVal.num 50) ∧
    getMetric (calculate_metrics demo_records demo_account) "Profit Factor" =
      some (MVal.num 2) ∧
    getMetric (calculate_metrics demo_records demo_account) "Best Trade" =
      some (MVal.num 100) ∧
    getMetric (calculate_metrics demo_records demo_account) "Worst Trade" =
      some (MVal.num (-50)) ∧
    getMetric (calculate_metrics demo_records demo_account) "Long Won" =
      some (MVal.num 100) ∧
    getMetric (calculate_metrics demo_records demo_account) "Short Won" =
      some (MVal.num 0) ∧
    getMetric (calculate_metrics demo_records demo_account) "Custom ROI" =
      some (MVal.num 5) ∧
    getMetric (calculate_metrics demo_records demo_account) "Equity to Balance Ratio" =
      some (MVal.num 105) ∧
    getMetric (calculate_metrics demo_records demo_account) "Margin Level" =
      some (MVal.num 200) := by
  have h1 : lots demo_records = 3 := by
    norm_num [lots, demo_records, List.sum]
  have h2 : win_rate demo_records = 50 := by
    norm_num [win_rate, total_trades, profitable_trades, List.filter, demo_records]
  have h3 : loss_rate demo_records = 50 := by
    norm_num [loss_rate, total_trades, losing_trades, List.filter, demo_records]
  have h4 : gross_profit demo_records = 100 := by
    norm_num [gross_profit, profitable_trades, List.filter, List.sum, demo_records]
  have h5 : gross_loss demo_records = 50 := by
    norm_num [gross_loss, losing_trades, List.filter, List.sum, demo_records]
  have h6 : profit_factor demo_records = 2 := by
    norm_num [profit_factor, h4, h5]
  have h7 : best_trade demo_records = 100 := by
    norm_num [best_trade, profitable_trades, List.filter, series_max, demo_records]
  have h8 : worst_trade demo_records = -50 := by
    norm_num [worst_trade, losing_trades, List.filter, series_min, demo_records]
  have h9 : long_won demo_records = 100 := by
    norm_num [long_won, long_trades, ORDER_TYPE_BUY, ORDER_TYPE_SELL, List.filter, demo_records]
  have h10 : short_won demo_records = 0 := by
    norm_num [short_won, short_trades, ORDER_TYPE_BUY, ORDER_TYPE_SELL, List.filter, demo_records]
  have h11 : (if demo_account.balance > 0 then
      demo_account.profit / demo_account.balance * 100 else 0) = (5 : ℚ) := by
    norm_num [demo_account]
  have h12 : (if demo_account.balance > 0 then
      demo_account.equity / demo_account.balance * 100 else 0) = (105 : ℚ) := by
    norm_num [demo_account]
  have h13 : (if demo_account.margin_level > 0 then
      demo_account.margin_level else 0) = (200 : ℚ) := by
    norm_num [demo_account]
  exact ⟨congrArg (fun q => some (MVal.num q)) h1,
    congrArg (fun q => some (MVal.num q)) h2,
    congrArg (fun q => some (MVal.num q)) h3,
    congrArg (fun q => some (MVal.num q)) h4,
    congrArg (fun q => some (MVal.num q)) h5,
    congrArg (fun q => some (MVal.num q)) h6,
    congrArg (fun q => some (MVal.num q)) h7,
    congrArg (fun q => some (MVal.num q)) h8,
    congrArg (fun q => some (MVal.num q)) h9,
    congrArg (fun q => some (MVal.num q)) h10,
    congrArg (fun q => some (MVal.num q)) h11,
    congrArg (fun q => some (MVal.num q)) h12,
    congrArg (fun q => some (MVal.num q)) h13⟩
